import Mathlib

/-!
Verification development for the Quizzie quiz-lifecycle backend
(`src/index.js`): quiz generation (`POST /generate_quiz/:id`),
student delivery (`GET /take_quiz/:quizId`, `GET /api/quiz/:quizId`),
scoring (`POST /api/quiz/submit/:quizId`) and explanation lookup
(`POST /api/explanation/get`).

The handlers are embedded shallowly: the MongoDB collections become
lists inside an `AppState` record, each route handler becomes a pure
function from the state and the request data to a response (and, for
mutating routes, a successor state), and the JSON values the external
generative model returns are modelled by the inductive `Json` type
below.  Property reads `o[k]` on JavaScript values are modelled by
`Json.getField` (yielding `undefined` when absent), and property
writes by `Json.setField`, which — matching sloppy-mode JavaScript —
are silent no-ops on primitive values.
-/

namespace Quizzie

/-- A JavaScript/JSON value as produced by `JSON.parse` and stored in the
quiz documents.  Arrays carry, besides their elements, the list of named
(non-index) properties that later assignments may attach to them. -/
inductive Json where
  | null
  | undefined
  | bool (b : Bool)
  | num (q : ℚ)
  | str (s : String)
  | arr (elems : List Json) (props : List (String × Json))
  | obj (fields : List (String × Json))

/-- First-match association-list lookup; `undefined` when the key is absent
(JavaScript property read on an object without that property). -/
def getAssoc : List (String × Json) → String → Json
  | [], _ => .undefined
  | (k', v) :: rest, k => if k' = k then v else getAssoc rest k

/-- Association-list update: replaces the first binding of the key, or
appends a new binding. -/
def setAssoc : List (String × Json) → String → Json → List (String × Json)
  | [], k, v => [(k, v)]
  | (k', v') :: rest, k, v =>
      if k' = k then (k, v) :: rest else (k', v') :: setAssoc rest k v

/-- JavaScript property read `o[k]`: named-property lookup on objects and
arrays, `undefined` on every primitive. -/
def Json.getField : Json → String → Json
  | .obj fields, k => getAssoc fields k
  | .arr _ props, k => getAssoc props k
  | _, _ => .undefined

/-- JavaScript property write `o[k] = v` in sloppy mode: updates objects
and (named properties of) arrays, and is a silent no-op on primitives. -/
def Json.setField : Json → String → Json → Json
  | .obj fields, k, v => .obj (setAssoc fields k v)
  | .arr elems props, k, v => .arr elems (setAssoc props k v)
  | j, _, _ => j

/-- JavaScript truthiness of a value (`NaN` is not modelled). -/
def jsTruthy : Json → Bool
  | .null => false
  | .undefined => false
  | .bool b => b
  | .num q => q ≠ 0
  | .str s => s ≠ ""
  | .arr _ _ => true
  | .obj _ => true

/-- The keys of an object (or the named properties of an array); the
top-level field names a serialized response would expose. -/
def Json.keys : Json → List String
  | .obj fields => fields.map Prod.fst
  | .arr _ props => props.map Prod.fst
  | _ => []

/-- Whether a value is a plain object. -/
def Json.isObj : Json → Bool
  | .obj _ => true
  | _ => false

mutual

/-- JavaScript string coercion `String(v)` as used by template literals.
(Number formatting is approximated by the rational literal printer; the
handlers only ever interpolate string-valued fields of stored quizzes.) -/
def Json.jsToString : Json → String
  | .null => "null"
  | .undefined => "undefined"
  | .bool b => if b then "true" else "false"
  | .num q => toString q
  | .str s => s
  | .arr elems _ => jsToStringElems elems
  | .obj _ => "[object Object]"

/-- `Array.prototype.toString`: elements joined by commas, with `null` and
`undefined` elements rendered as the empty string. -/
def jsToStringElems : List Json → String
  | [] => ""
  | [e] =>
      match e with
      | .null => ""
      | .undefined => ""
      | e => Json.jsToString e
  | e :: rest =>
      (match e with
       | .null => ""
       | .undefined => ""
       | e => Json.jsToString e) ++ "," ++ jsToStringElems rest

end

/-- JavaScript property read on a value that might be `null`/`undefined`:
those two throw a `TypeError`, every other base yields `getField`. -/
def jsGetProp (v : Json) (k : String) : Except String Json :=
  match v with
  | .null => .error "Cannot read properties of null"
  | .undefined => .error "Cannot read properties of undefined"
  | _ => .ok (v.getField k)

/-- `String.prototype.includes`, used to classify upstream API errors. -/
def jsIncludes (s sub : String) : Bool :=
  (s.splitOn sub).length > 1

/-- `String.prototype.trim`: strip leading and trailing whitespace.
(Implemented structurally over the character list so that it evaluates
inside the kernel; the JavaScript whitespace set is approximated by
`Char.isWhitespace`.) -/
def jsTrim (s : String) : String :=
  String.mk (((s.data.dropWhile Char.isWhitespace).reverse.dropWhile
    Char.isWhitespace).reverse)

/-! ## Data model (the MongoDB documents the quiz lifecycle touches) -/

/-- The authenticated session data every route trusts
(`req.session.userId / userName / userType`). -/
structure Session where
  userId : String
  userName : String
  userType : String
  deriving Repr, DecidableEq

/-- A `lectureCollection` document (the fields the quiz-generation route
reads or writes; timestamps are not modelled). `extractedText = none`
models a document without that field. -/
structure Lecture where
  id : String
  title : String
  professorId : String
  extractedText : Option String
  processingStatus : String
  quizGenerated : Bool
  quizGenerationError : Option String
  quizzesCount : Nat
  classId : Option String
  className : Option String
  deriving Repr, DecidableEq

/-- A `quizCollection` document.  The `questions` array is stored exactly
as the validated AI response left it, hence `List Json`. -/
structure StoredQuiz where
  id : String
  lectureId : String
  lectureTitle : String
  questions : List Json
  totalQuestions : Nat
  createdBy : String
  classId : Option String
  className : Option String

/-- One entry of the `studentAnswers` array in the submit request body. -/
structure SAnswer where
  questionIndex : Nat
  question : String
  selectedOption : String
  deriving Repr, DecidableEq

/-- One entry of the `detailedAnswers` array persisted with a result
(`correctOption` is the `correct_answer` value of the stored question). -/
structure DetailedAnswer where
  questionIndex : Nat
  question : String
  selectedOption : String
  correctOption : Json
  isCorrect : Bool

/-- A `quizResultCollection` document (submission timestamp not
modelled). -/
structure QuizResult where
  quizId : String
  lectureId : String
  classId : Option String
  studentId : String
  studentName : String
  score : Nat
  totalQuestions : Nat
  percentage : ℚ
  timeTakenSeconds : Nat
  answers : List DetailedAnswer

/-- A `classStudentCollection` enrollment document. -/
structure Enrollment where
  studentId : String
  classId : String
  isActive : Bool
  deriving Repr, DecidableEq

/-- A `classCollection` document (the fields the quiz routes read). -/
structure ClassDoc where
  id : String
  name : String
  subject : String
  deriving Repr, DecidableEq

/-- The database as the handlers see it: one list per collection. -/
structure AppState where
  lectures : List Lecture
  quizzes : List StoredQuiz
  results : List QuizResult
  enrollments : List Enrollment
  classes : List ClassDoc

/-- A JSON API reply: HTTP status plus the `success`/`message` body every
route sends (payload fields that matter to a claim are exposed through
the state or a dedicated result type instead). -/
structure ApiResponse where
  status : Nat
  success : Bool
  message : String
  deriving Repr, DecidableEq

/-- `classStudentCollection.findOne(\x7b studentId, classId, isActive: true \x7d)`
is some, as both the take-quiz page and the submit route run it. -/
def enrollmentOk (st : AppState) (studentId : String) : Option String → Bool
  | some classId =>
      (st.enrollments.find? fun e =>
        e.studentId = studentId && e.classId = classId && e.isActive).isSome
  | none => true

/-! ## Scoring (`POST /api/quiz/submit/:quizId`, the `studentAnswers.forEach`
loop at src/index.js lines 2027-2052) -/

/-- JavaScript `sAnswer.selectedOption === question.correct_answer` where
the submitted option is a string: true exactly when the stored value is
that same string. -/
def isStrEq (j : Json) (s : String) : Bool :=
  match j with
  | .str t => t = s
  | _ => false

/-- One iteration of the scoring `forEach`: answers whose index misses the
questions array — or hits a falsy element — are skipped; a match on the
stored `correct_answer` adds one point and every looked-up answer is
recorded in `detailedAnswers`. -/
def scoreStep (questions : List Json) (acc : Nat × List DetailedAnswer)
    (a : SAnswer) : Nat × List DetailedAnswer :=
  match questions.get? a.questionIndex with
  | some q =>
      if jsTruthy q then
        let correct := q.getField "correct_answer"
        let isCorrect := isStrEq correct a.selectedOption
        ((if isCorrect then acc.1 + 1 else acc.1),
         acc.2 ++ [⟨a.questionIndex, a.question, a.selectedOption, correct, isCorrect⟩])
      else acc
  | none => acc

/-- The whole scoring loop: running score and detailed answer list. -/
def scoreLoop (questions : List Json) (answers : List SAnswer) :
    Nat × List DetailedAnswer :=
  answers.foldl (scoreStep questions) (0, [])

/-- `percentage = (totalQuestions > 0) ? (score / totalQuestions) * 100 : 0`. -/
def percentageOf (score totalQuestions : Nat) : ℚ :=
  if totalQuestions > 0 then (score : ℚ) / (totalQuestions : ℚ) * 100 else 0

/-- `POST /api/quiz/submit/:quizId` (src/index.js lines 1974-2101): role
check, quiz lookup, enrollment check for class-scoped quizzes, duplicate
check, scoring, and the insert of the new `QuizResult`. -/
def submitQuiz (st : AppState) (sess : Session) (quizId : String)
    (studentAnswers : List SAnswer) (timeTakenSeconds : Nat) :
    ApiResponse × AppState :=
  if sess.userType ≠ "student" then
    ({ status := 403, success := false,
       message := "Access denied. Only students can submit quizzes." }, st)
  else
    match st.quizzes.find? fun qz => qz.id = quizId with
    | none =>
        ({ status := 404, success := false,
           message := "Quiz not found for scoring." }, st)
    | some quiz =>
        if ¬ enrollmentOk st sess.userId quiz.classId then
          ({ status := 403, success := false,
             message := "You are not enrolled in the class for this quiz." }, st)
        else if (st.results.find? fun r =>
            r.quizId = quizId && r.studentId = sess.userId).isSome then
          ({ status := 400, success := false,
             message := "You have already submitted this quiz." }, st)
        else
          let scored := scoreLoop quiz.questions studentAnswers
          let totalQuestions := quiz.totalQuestions
          let newResult : QuizResult :=
            { quizId := quizId
              lectureId := quiz.lectureId
              classId := quiz.classId
              studentId := sess.userId
              studentName := sess.userName
              score := scored.1
              totalQuestions := totalQuestions
              percentage := percentageOf scored.1 totalQuestions
              timeTakenSeconds := timeTakenSeconds
              answers := scored.2 }
          ({ status := 200, success := true,
             message := "Quiz submitted and scored successfully!" },
           { st with results := st.results ++ [newResult] })

/-! ## Student-facing quiz delivery -/

/-- What `GET /api/quiz/:quizId` builds per question: the object literal
`\x7b question: q.question, options: q.options \x7d` and nothing else. -/
def questionsForClient (questions : List Json) : List Json :=
  questions.map fun q =>
    .obj [("question", q.getField "question"), ("options", q.getField "options")]

/-- Outcome of `GET /api/quiz/:quizId`. -/
inductive QuizApiResult where
  | err (status : Nat) (message : String)
  | ok (quizId : String) (lectureTitle : String) (totalQuestions : Nat)
       (questions : List Json)

/-- `GET /api/quiz/:quizId` (src/index.js lines 1938-1971): role check,
quiz lookup, and the sanitized payload — the route reads neither the
enrollment collection nor the results collection. -/
def apiQuizGet (st : AppState) (sess : Session) (quizId : String) :
    QuizApiResult :=
  if sess.userType ≠ "student" then
    .err 403 "Access denied. Only students can access quiz questions."
  else
    match st.quizzes.find? fun qz => qz.id = quizId with
    | none => .err 404 "Quiz not found."
    | some quiz =>
        .ok quizId quiz.lectureTitle quiz.totalQuestions
          (questionsForClient quiz.questions)

/-- Outcome of the `GET /take_quiz/:quizId` page route (the redirect to
the results page carries the quiz title; URL-encoding is not modelled). -/
inductive PageResult where
  | loginRedirect (message : String)
  | notFoundPage (message : String)
  | forbiddenPage (message : String)
  | alreadyTakenRedirect (quizTitle : String)
  | renderTakeQuiz (quizId : String) (lectureTitle : String)
      (totalQuestions : Nat) (classId : Option String)
      (className : Option String) (classSubject : Option String)
      (userName : String) (classContext : Bool)
  deriving Repr, DecidableEq

/-- `GET /take_quiz/:quizId` (src/index.js lines 1872-1936): role check,
quiz lookup, enrollment check against the query-string class (when truthy)
or the class of the quiz itself, already-taken redirect, then the page render.
The handler performs no database write, so it returns the state
unchanged. -/
def takeQuiz (st : AppState) (sess : Session) (quizId : String)
    (queryClassId : Option String) : PageResult × AppState :=
  if sess.userType ≠ "student" then
    (.loginRedirect "Access denied. Only students can take quizzes.", st)
  else
    match st.quizzes.find? fun qz => qz.id = quizId with
    | none => (.notFoundPage "Quiz not found.", st)
    | some quiz =>
        let targetClassId : Option String :=
          match queryClassId with
          | some c => if c ≠ "" then some c else quiz.classId
          | none => quiz.classId
        if targetClassId.isSome && ¬ enrollmentOk st sess.userId targetClassId then
          (.forbiddenPage "You are not enrolled in this class.", st)
        else if (st.results.find? fun r =>
            r.quizId = quizId && r.studentId = sess.userId).isSome then
          (.alreadyTakenRedirect quiz.lectureTitle, st)
        else
          let classInfo : Option ClassDoc :=
            match quiz.classId with
            | some c => st.classes.find? fun cd => cd.id = c
            | none => none
          (.renderTakeQuiz quizId quiz.lectureTitle quiz.totalQuestions
             quiz.classId (classInfo.map (·.name)) (classInfo.map (·.subject))
             sess.userName
             (match queryClassId with | some c => c ≠ "" | none => false), st)

/-! ## Quiz generation (`POST /generate_quiz/:id`, src/index.js
lines 1456-1751).  The external model call followed by the code-fence
strip and `JSON.parse` (a platform builtin) is taken as an input:
either the API threw, or it produced text that parsed to a `Json`
value (`none` when `JSON.parse` itself threw). -/

/-- Outcome of the Gemini call as the parse/validate block receives it. -/
inductive AiCall where
  | apiError (msg : String)
  | output (parsed : Option Json)

/-- The option labels A, B, C, D. -/
def labels : List String := ["A", "B", "C", "D"]

/-- The synthesized fallback for a missing or blank wrong-option
explanation (src/index.js line 1631). -/
def fallbackExplanation (ca : String) : String :=
  "This option is incorrect. The correct answer is " ++ ca ++
    ". Please review the lecture material for more details."

/-- One iteration of the wrong-option `forEach` (src/index.js lines
1627-1633) acting on the `explanations` value `e`: the correct label is
skipped; a falsy or blank-string entry is overwritten with the fallback;
a truthy non-string entry makes `.trim()` throw. -/
def stepOption (ca : String) (e : Json) (opt : String) : Except String Json :=
  if opt = ca then .ok e
  else
    if jsTruthy (e.getField opt) then
      match e.getField opt with
      | .str s =>
          if jsTrim s = "" then .ok (e.setField opt (.str (fallbackExplanation ca)))
          else .ok e
      | _ => .error "explanations entry has no trim method"
    else .ok (e.setField opt (.str (fallbackExplanation ca)))

/-- Per-question validation and repair (src/index.js lines 1618-1637):
required-field truthiness, `correct_answer` must be one of the four
labels (strict `includes`, so only a string can pass), each wrong label
gets a non-blank explanation or the fallback, and the entry of the
correct label is force-set to the empty string.  A thrown `TypeError` on an
element without properties is folded into the missing-fields error. -/
def validateQuestion (q : Json) (idx : Nat) : Except String Json :=
  if ¬ (jsTruthy (q.getField "question") && jsTruthy (q.getField "options") &&
        jsTruthy (q.getField "correct_answer") &&
        jsTruthy (q.getField "explanations") &&
        jsTruthy (q.getField "correctAnswerExplanation")) then
    .error ("Question " ++ toString (idx + 1) ++
      " is missing required fields (including explanations)")
  else
    match q.getField "correct_answer" with
    | .str ca =>
        if labels.contains ca then
          match stepOption ca (q.getField "explanations") "A" with
          | .error m => .error m
          | .ok e1 =>
            match stepOption ca e1 "B" with
            | .error m => .error m
            | .ok e2 =>
              match stepOption ca e2 "C" with
              | .error m => .error m
              | .ok e3 =>
                match stepOption ca e3 "D" with
                | .error m => .error m
                | .ok e4 =>
                    .ok (q.setField "explanations" (e4.setField ca (.str "")))
        else
          .error ("Question " ++ toString (idx + 1) ++ " has invalid correct_answer")
    | _ => .error ("Question " ++ toString (idx + 1) ++ " has invalid correct_answer")

/-- The `generatedQuiz.forEach` over all questions; the first thrown
validation error aborts the whole block. -/
def validateQuestions : List Json → Nat → Except String (List Json)
  | [], _ => .ok []
  | q :: rest, idx =>
      match validateQuestion q idx with
      | .error m => .error m
      | .ok q' =>
          match validateQuestions rest (idx + 1) with
          | .error m => .error m
          | .ok rest' => .ok (q' :: rest')

/-- Response-shape validation (src/index.js lines 1609-1637): the parsed
value must be a non-empty array, then every element is validated and
repaired in place. -/
def validateQuiz : Json → Except String (List Json)
  | .arr qs _ =>
      if qs.isEmpty then .error "No questions generated"
      else validateQuestions qs 0
  | _ => .error "Response is not an array"

/-- The generation precondition `!extractedText || extractedText.length < 50`
(src/index.js line 1494): missing, empty or shorter than 50 characters. -/
def textTooShort : Option String → Bool
  | none => true
  | some t => t.length < 50

/-- `lectureCollection.findByIdAndUpdate(id, ...)`: apply the field update
to the matching document. -/
def updateLecture (lectures : List Lecture) (id : String)
    (f : Lecture → Lecture) : List Lecture :=
  lectures.map fun l => if l.id = id then f l else l

/-- Mark the lecture failed with the given error string
(`processingStatus: "failed", quizGenerated: false,
quizGenerationError: msg`). -/
def failLecture (st : AppState) (id : String) (msg : String) : AppState :=
  { st with lectures := updateLecture st.lectures id fun l =>
      { l with processingStatus := "failed", quizGenerated := false,
               quizGenerationError := some msg } }

/-- The body of `POST /generate_quiz/:id` after the preliminary checks
(the try block from src/index.js line 1492 on): `st1` is the state in
which the lecture was already marked `processing`.  The 50-character text
precondition, then the model call with parse/validate/repair and the quiz
insert.  Database write failures are not modelled. -/
def generateQuizCore (st1 : AppState) (sess : Session) (lectureId : String)
    (lecture : Lecture) (ai : AiCall) (newQuizId : String) :
    ApiResponse × AppState :=
  if textTooShort lecture.extractedText then
    ({ status := 400, success := false,
       message := "Extracted text is too short or missing for quiz generation." },
     failLecture st1 lectureId "Text too short for quiz generation")
  else
    match ai with
    | .apiError msg =>
        if jsIncludes msg "quota" || jsIncludes msg "limit" then
          ({ status := 429, success := false,
             message := "API quota exceeded. Please try again later." },
           failLecture st1 lectureId ("Enhanced AI API Error: " ++ msg))
        else
          ({ status := 500, success := false,
             message := "Failed to generate enhanced quiz. Please check your API key and try again." },
           failLecture st1 lectureId ("Enhanced AI API Error: " ++ msg))
    | .output none =>
        ({ status := 500, success := false,
           message := "Failed to parse enhanced AI response. Please try again." },
         failLecture st1 lectureId "Enhanced AI response parsing failed: JSON parse error")
    | .output (some j) =>
        match validateQuiz j with
        | .error m =>
            ({ status := 500, success := false,
               message := "Failed to parse enhanced AI response. Please try again." },
             failLecture st1 lectureId ("Enhanced AI response parsing failed: " ++ m))
        | .ok questions =>
            ({ status := 200, success := true,
               message := "Enhanced quiz generated successfully with " ++
                 toString questions.length ++
                 " questions and detailed explanations!" },
             { st1 with
               quizzes := st1.quizzes ++
                 [{ id := newQuizId
                    lectureId := lectureId
                    lectureTitle := lecture.title
                    questions := questions
                    totalQuestions := questions.length
                    createdBy := sess.userId
                    classId := lecture.classId
                    className := lecture.className }]
               lectures := updateLecture st1.lectures lectureId fun l =>
                 { l with quizGenerated := true,
                          processingStatus := "completed",
                          quizzesCount := 1 } })

/-- `POST /generate_quiz/:id` (src/index.js lines 1456-1751): lecture
lookup, teacher-ownership check, quiz-already-exists check, the
`processing` status write, then the generation body. The id the database
assigns to the new quiz document is the `newQuizId` input. -/
def generateQuiz (st : AppState) (sess : Session) (lectureId : String)
    (ai : AiCall) (newQuizId : String) : ApiResponse × AppState :=
  match st.lectures.find? fun l => l.id = lectureId with
  | none => ({ status := 404, success := false, message := "Lecture not found" }, st)
  | some lecture =>
    if sess.userType = "teacher" && lecture.professorId ≠ sess.userId then
      ({ status := 403, success := false,
         message := "Access denied. You can only generate quizzes for your own lectures." }, st)
    else if (st.quizzes.find? fun qz => qz.lectureId = lectureId).isSome then
      ({ status := 400, success := false,
         message := "Quiz already generated for this lecture" }, st)
    else
      generateQuizCore
        { st with lectures := updateLecture st.lectures lectureId fun l =>
            { l with processingStatus := "processing" } }
        sess lectureId lecture ai newQuizId

/-! ## Explanation lookup (`POST /api/explanation/get`, src/index.js
lines 3312-3390).  A pure read over the stored quiz: the handler never
invokes the generative model. -/

/-- Outcome of `POST /api/explanation/get` (the response additionally
echoes stored question fields as `questionDetails`; building that echo
can throw when `options` is null or undefined, which is preserved as the
500 branch of `explanationGet`). -/
inductive ExplanationResult where
  | err (status : Nat) (message : String)
  | ok (explanation : String) (explanationType : String)
  deriving Repr, DecidableEq

/-- The fallback message of the basic branch (src/index.js lines
3353-3357): names the correct option and appends the stored
correct-answer explanation when that is non-blank. -/
def basicText (question : Json) : Except String String :=
  let caStr := Json.jsToString (question.getField "correct_answer")
  let cae := question.getField "correctAnswerExplanation"
  match
    (if jsTruthy cae then
      match cae with
      | .str t => Except.ok (jsTrim t ≠ "")
      | _ => Except.error "correctAnswerExplanation has no trim method"
    else Except.ok false) with
  | .error m => .error m
  | .ok useCae =>
      match jsGetProp (question.getField "options") caStr with
      | .error m => .error m
      | .ok optVal =>
          let head := "The correct answer is " ++ caStr ++ ") " ++
            Json.jsToString optVal
          if useCae then
            match cae with
            | .str t => .ok (head ++ ".\n\n" ++ t)
            | _ => .error "correctAnswerExplanation has no trim method"
          else
            .ok (head ++ ". Please review the lecture material for detailed understanding.")

/-- The explanation text and its `explanationType` (src/index.js lines
3337-3360): a present, non-blank stored entry for the chosen label is
returned with the correct-answer explanation appended after the visible
delimiter; otherwise the basic fallback message is used. -/
def explanationText (question : Json) (wrongAnswer : String) :
    Except String (String × String) :=
  let expls := question.getField "explanations"
  let entry := expls.getField wrongAnswer
  if jsTruthy expls && jsTruthy entry then
    match entry with
    | .str s =>
        if jsTrim s ≠ "" then
          let cae := question.getField "correctAnswerExplanation"
          if jsTruthy cae then
            match cae with
            | .str t =>
                if jsTrim t ≠ "" then
                  .ok (s ++ "\n\n💡 **Why " ++
                    Json.jsToString (question.getField "correct_answer") ++
                    " is correct:** " ++ t, "detailed")
                else .ok (s, "detailed")
            | _ => .error "correctAnswerExplanation has no trim method"
          else .ok (s, "detailed")
        else
          (basicText question).map fun b => (b, "basic")
    | _ => .error "explanations entry has no trim method"
  else
    (basicText question).map fun b => (b, "basic")

/-- `POST /api/explanation/get` (src/index.js lines 3312-3390): role
check, quiz lookup, question lookup (a falsy element is treated as not
found), then the pure explanation read; the `questionDetails` property
reads on `options` are evaluated for every success reply. -/
def explanationGet (st : AppState) (sess : Session) (quizId : String)
    (questionIndex : Nat) (wrongAnswer : String) : ExplanationResult :=
  if sess.userType ≠ "student" then
    .err 403 "Access denied. Students only."
  else
    match st.quizzes.find? fun qz => qz.id = quizId with
    | none => .err 404 "Quiz not found."
    | some quiz =>
        match quiz.questions.get? questionIndex with
        | none => .err 404 "Question not found."
        | some question =>
            if ¬ jsTruthy question then .err 404 "Question not found."
            else
              match explanationText question wrongAnswer with
              | .error m => .err 500 ("Failed to retrieve explanation: " ++ m)
              | .ok (text, ty) =>
                  match jsGetProp (question.getField "options")
                      (Json.jsToString (question.getField "correct_answer")) with
                  | .error m => .err 500 ("Failed to retrieve explanation: " ++ m)
                  | .ok _ =>
                      match jsGetProp (question.getField "options") wrongAnswer with
                      | .error m => .err 500 ("Failed to retrieve explanation: " ++ m)
                      | .ok _ => .ok text ty

/-! ## Specification-side definitions (phrased from the spec, for
comparison with the handler code) -/

/-- Specification counting of the score: the number of submitted answers
whose `selectedOption` equals the `correct_answer` of the question at
their `questionIndex`; out-of-range indices contribute nothing.  This
follows the spec sentence, to be compared with `scoreLoop`. -/
def specScore (questions : List Json) (answers : List SAnswer) : Nat :=
  (answers.filter fun a =>
    match questions.get? a.questionIndex with
    | some q => isStrEq (q.getField "correct_answer") a.selectedOption
    | none => false).length

/-- A stored explanation value that is absent or blank in the sense of the
lookup route: falsy, or a string of only whitespace. -/
def jsBlank (v : Json) : Prop :=
  jsTruthy v = false ∨ ∃ t, v = .str t ∧ jsTrim t = ""

/-! ## Concrete sample data (used by the witness theorems) -/

/-- A well-formed stored question with correct answer A. -/
def demoQuestion : Json := .obj
  [("question", .str "What is 2+2?"),
   ("options", .obj [("A", .str "4"), ("B", .str "3"), ("C", .str "2"), ("D", .str "1")]),
   ("correct_answer", .str "A"),
   ("correctAnswerExplanation", .str "Adding two and two gives four."),
   ("explanations", .obj
     [("A", .str ""),
      ("B", .str "Three is one short."),
      ("C", .str "Two counts only one addend."),
      ("D", .str "One is too small.")])]

/-- A raw model question whose B and C explanations are blank or missing,
exercising the generation-time fallback. -/
def demoRawQuestion : Json := .obj
  [("question", .str "What is 2+2?"),
   ("options", .obj [("A", .str "4"), ("B", .str "3"), ("C", .str "2"), ("D", .str "1")]),
   ("correct_answer", .str "A"),
   ("correctAnswerExplanation", .str "Adding two and two gives four."),
   ("explanations", .obj [("A", .str "ignored"), ("B", .str "  "), ("D", .str "One is too small.")])]

/-- A stored quiz (no class association) built from `demoQuestion`. -/
def demoQuiz : StoredQuiz where
  id := "qz1"
  lectureId := "lec1"
  lectureTitle := "Arithmetic"
  questions := [demoQuestion]
  totalQuestions := 1
  createdBy := "t1"
  classId := none
  className := none

/-- A stored quiz scoped to class c1. -/
def demoClassQuiz : StoredQuiz where
  id := "qz2"
  lectureId := "lec2"
  lectureTitle := "Algebra"
  questions := [demoQuestion]
  totalQuestions := 1
  createdBy := "t1"
  classId := some "c1"
  className := some "Math"

/-- A lecture with enough extracted text for generation. -/
def demoLecture : Lecture where
  id := "lec1"
  title := "Arithmetic"
  professorId := "t1"
  extractedText := some (String.mk (List.replicate 60 'x'))
  processingStatus := "pending"
  quizGenerated := false
  quizGenerationError := none
  quizzesCount := 0
  classId := none
  className := none

/-- A lecture whose extracted text is only 4 characters long. -/
def demoShortLecture : Lecture where
  id := "lec2"
  title := "Stub"
  professorId := "t1"
  extractedText := some "tiny"
  processingStatus := "pending"
  quizGenerated := false
  quizGenerationError := none
  quizzesCount := 0
  classId := none
  className := none

/-- The owning teacher session. -/
def demoTeacher : Session := { userId := "t1", userName := "Tess", userType := "teacher" }

/-- A student session. -/
def demoStudent : Session := { userId := "s1", userName := "Sam", userType := "student" }

/-- An existing result of demoStudent on quiz qz1. -/
def demoResult : QuizResult where
  quizId := "qz1"
  lectureId := "lec1"
  classId := none
  studentId := "s1"
  studentName := "Sam"
  score := 1
  totalQuestions := 1
  percentage := 100
  timeTakenSeconds := 10
  answers := []

/-- An existing result of demoStudent on the class-scoped quiz qz2. -/
def demoClassResult : QuizResult where
  quizId := "qz2"
  lectureId := "lec2"
  classId := some "c1"
  studentId := "s1"
  studentName := "Sam"
  score := 1
  totalQuestions := 1
  percentage := 100
  timeTakenSeconds := 10
  answers := []

/-- Base database state: both quizzes, one lecture, no results and no
enrollments. -/
def demoState : AppState where
  lectures := [demoLecture]
  quizzes := [demoQuiz, demoClassQuiz]
  results := []
  enrollments := []
  classes := []

/-- demoState after demoStudent already has a result on qz1. -/
def demoStateTaken : AppState := { demoState with results := [demoResult] }

/-- demoState with a result of demoStudent on the class quiz qz2 (the
student is still not enrolled in c1). -/
def demoStateClassTaken : AppState := { demoState with results := [demoClassResult] }

/-- Generation start state: the lectures only, no quizzes yet. -/
def demoGenState : AppState where
  lectures := [demoLecture, demoShortLecture]
  quizzes := []
  results := []
  enrollments := []
  classes := []

/-- A parsed model response of one raw question. -/
def demoAi : AiCall := .output (some (.arr [demoRawQuestion] []))

/-- A raw model question whose `explanations` value is a truthy string
primitive instead of an object: every required field is truthy, so
validation passes, yet the sloppy-mode repair writes are silent no-ops
and no per-label explanation entry exists. -/
def demoBadQuestion : Json := .obj
  [("question", .str "What is 2+2?"),
   ("options", .obj [("A", .str "4"), ("B", .str "3"), ("C", .str "2"), ("D", .str "1")]),
   ("correct_answer", .str "A"),
   ("correctAnswerExplanation", .str "Adding two and two gives four."),
   ("explanations", .str "nope")]

/-- A parsed model response carrying the bad question. -/
def demoBadAi : AiCall := .output (some (.arr [demoBadQuestion] []))

/-- The quiz document that generation persists from `demoBadQuestion`
(validation returns the question unchanged). -/
def demoBadQuiz : StoredQuiz where
  id := "qz8"
  lectureId := "lec1"
  lectureTitle := "Arithmetic"
  questions := [demoBadQuestion]
  totalQuestions := 1
  createdBy := "t1"
  classId := none
  className := none

/-- Two submitted answers for the same question index, both correct. -/
def demoDupAnswers : List SAnswer :=
  [⟨0, "What is 2+2?", "A"⟩, ⟨0, "What is 2+2?", "A"⟩]

/-- A submission answering question 0 correctly and naming an out-of-range
index 5. -/
def demoAnswers : List SAnswer :=
  [⟨0, "What is 2+2?", "A"⟩, ⟨5, "ghost", "B"⟩]

/-! ## Supporting lemmas -/

theorem getAssoc_setAssoc_self (fs : List (String × Json)) (k : String) (v : Json) :
    getAssoc (setAssoc fs k v) k = v := by
  induction fs with
  | nil => simp [getAssoc, setAssoc]
  | cons p rest ih =>
      obtain ⟨k0, v0⟩ := p
      by_cases h0 : k0 = k
      · simp [setAssoc, h0, getAssoc]
      · simp [setAssoc, h0, getAssoc, ih]

theorem getAssoc_setAssoc_ne (fs : List (String × Json)) (k k' : String) (v : Json)
    (h : k' ≠ k) : getAssoc (setAssoc fs k v) k' = getAssoc fs k' := by
  induction fs with
  | nil => simp [getAssoc, setAssoc, Ne.symm h]
  | cons p rest ih =>
      obtain ⟨k0, v0⟩ := p
      by_cases h0 : k0 = k
      · simp [setAssoc, h0, getAssoc, Ne.symm h]
      · simp [setAssoc, h0, getAssoc, ih]

theorem Json.getField_setField_ne (j : Json) (k k' : String) (v : Json)
    (h : k' ≠ k) : (j.setField k v).getField k' = j.getField k' := by
  cases j <;> simp [Json.setField, Json.getField, getAssoc_setAssoc_ne _ _ _ _ h]

theorem Json.getField_setField_self_obj (fs : List (String × Json)) (k : String)
    (v : Json) : ((Json.obj fs).setField k v).getField k = v := by
  simp [Json.setField, Json.getField, getAssoc_setAssoc_self]

theorem getField_of_not_truthy (j : Json) (h : jsTruthy j = false) (k : String) :
    j.getField k = .undefined := by
  cases j <;> first | rfl | simp [jsTruthy] at h

theorem scoreStep_fst (questions : List Json) (acc : Nat × List DetailedAnswer)
    (a : SAnswer) :
    (scoreStep questions acc a).1 = acc.1 + (scoreStep questions (0, []) a).1 := by
  unfold scoreStep
  cases hq : questions.get? a.questionIndex with
  | none => simp
  | some q =>
      by_cases ht : jsTruthy q
      · by_cases hc : isStrEq (q.getField "correct_answer") a.selectedOption <;>
          simp [ht, hc]
      · simp [ht]

theorem foldl_scoreStep_fst (questions : List Json) (answers : List SAnswer)
    (acc : Nat × List DetailedAnswer) :
    (answers.foldl (scoreStep questions) acc).1 = acc.1 + (scoreLoop questions answers).1 := by
  induction answers generalizing acc with
  | nil => simp [scoreLoop]
  | cons a rest ih =>
      simp only [scoreLoop, List.foldl_cons]
      rw [ih (scoreStep questions acc a), ih (scoreStep questions (0, []) a),
        scoreStep_fst]
      omega

theorem scoreLoop_fst_eq_specScore (questions : List Json) (answers : List SAnswer) :
    (scoreLoop questions answers).1 = specScore questions answers := by
  induction answers with
  | nil => rfl
  | cons a rest ih =>
      have hfold : (scoreLoop questions (a :: rest)).1 =
          (scoreStep questions (0, []) a).1 + (scoreLoop questions rest).1 := by
        simp only [scoreLoop, List.foldl_cons]
        rw [foldl_scoreStep_fst, scoreStep_fst]
        simp only [scoreLoop]
      rw [hfold, ih]
      have hstep : (scoreStep questions (0, []) a).1 =
          (if (match questions.get? a.questionIndex with
               | some q => isStrEq (q.getField "correct_answer") a.selectedOption
               | none => false) then 1 else 0) := by
        unfold scoreStep
        cases hq : questions.get? a.questionIndex with
        | none => simp
        | some q =>
            cases ht : jsTruthy q with
            | true =>
                by_cases hc : isStrEq (q.getField "correct_answer") a.selectedOption <;>
                  simp [ht, hc]
            | false => simp [ht, getField_of_not_truthy q ht, isStrEq]
      rw [hstep]
      simp only [specScore, List.filter]
      cases hp : (match questions.get? a.questionIndex with
        | some q => isStrEq (q.getField "correct_answer") a.selectedOption
        | none => false) <;> simp [hp, Nat.add_comm]

/-! ## Claim theorems -/

/-- C1: on a successful submission, the persisted score equals the number
of submitted answers whose selected option equals the `correct_answer` of
the stored question at their `questionIndex` (answers with an out-of-range
index are silently skipped and contribute nothing), and the persisted
percentage is `score / totalQuestions * 100`, taken to be `0` when
`totalQuestions = 0`. -/
theorem submit_score_correct (st : AppState) (sess : Session) (quizId : String)
    (answers : List SAnswer) (t : Nat) (quiz : StoredQuiz)
    (hs : sess.userType = "student")
    (hq : st.quizzes.find? (fun qz => qz.id = quizId) = some quiz)
    (henr : enrollmentOk st sess.userId quiz.classId = true)
    (hdup : st.results.find?
      (fun r => r.quizId = quizId && r.studentId = sess.userId) = none) :
    (submitQuiz st sess quizId answers t).1.success = true ∧
    ((submitQuiz st sess quizId answers t).2.results.map fun r =>
        (r.score, r.totalQuestions, r.percentage)) =
      (st.results.map fun r => (r.score, r.totalQuestions, r.percentage)) ++
        [(specScore quiz.questions answers, quiz.totalQuestions,
          if quiz.totalQuestions > 0 then
            (specScore quiz.questions answers : ℚ) / (quiz.totalQuestions : ℚ) * 100
          else 0)] := by
  have h1 : submitQuiz st sess quizId answers t =
      ({ status := 200, success := true,
         message := "Quiz submitted and scored successfully!" },
       { st with results := st.results ++
          [{ quizId := quizId, lectureId := quiz.lectureId, classId := quiz.classId,
             studentId := sess.userId, studentName := sess.userName,
             score := (scoreLoop quiz.questions answers).1,
             totalQuestions := quiz.totalQuestions,
             percentage := percentageOf (scoreLoop quiz.questions answers).1
               quiz.totalQuestions,
             timeTakenSeconds := t, answers := (scoreLoop quiz.questions answers).2 }] }) := by
    simp only [submitQuiz, hs, ne_eq, hq, henr, hdup]
    simp
  rw [h1]
  refine ⟨rfl, ?_⟩
  simp only [List.map_append, List.map_cons, List.map_nil]
  rw [scoreLoop_fst_eq_specScore]
  simp [percentageOf]

/-- Witness for submit_score_correct: a concrete submission with one
correct answer and one out-of-range answer on a one-question quiz. -/
theorem submit_score_correct_witness :
    (submitQuiz demoState demoStudent "qz1" demoAnswers 30).1.success = true ∧
    ((submitQuiz demoState demoStudent "qz1" demoAnswers 30).2.results.map fun r =>
        (r.score, r.totalQuestions, r.percentage)) =
      (demoState.results.map fun r => (r.score, r.totalQuestions, r.percentage)) ++
        [(specScore demoQuiz.questions demoAnswers, demoQuiz.totalQuestions,
          if demoQuiz.totalQuestions > 0 then
            (specScore demoQuiz.questions demoAnswers : ℚ) /
              (demoQuiz.totalQuestions : ℚ) * 100
          else 0)] :=
  submit_score_correct demoState demoStudent "qz1" demoAnswers 30 demoQuiz
    rfl rfl rfl rfl

/-- C9: the scoring loop counts submitted answers with multiplicity — each
entry of the answer list is scored on its own — so an answer list that
repeats the same in-range question index with the correct option gains one
point per entry, the score can exceed the number of distinct question
indices answered, and the resulting percentage exceeds 100. -/
theorem scoring_counts_with_multiplicity :
    (∀ (questions : List Json) (a : SAnswer) (rest : List SAnswer),
        (scoreLoop questions (a :: rest)).1 =
          (scoreLoop questions [a]).1 + (scoreLoop questions rest).1) ∧
    ((submitQuiz demoState demoStudent "qz1" demoDupAnswers 30).2.results.map
        fun r => (r.score, r.totalQuestions, r.percentage)) = [(2, 1, (200 : ℚ))] ∧
    (demoDupAnswers.map (fun a => a.questionIndex)).dedup.length = 1 ∧
    (100 : ℚ) < 200 := by
  refine ⟨?_, ?_, by decide, by norm_num⟩
  · intro questions a rest
    have h := foldl_scoreStep_fst questions rest (scoreStep questions (0, []) a)
    simp only [scoreLoop, List.foldl_cons] at h ⊢
    rw [h]
    rfl
  · have h1 : ((submitQuiz demoState demoStudent "qz1" demoDupAnswers 30).2.results.map
        fun r => (r.score, r.totalQuestions, r.percentage)) = [(2, 1, percentageOf 2 1)] := rfl
    have h2 : percentageOf 2 1 = 200 := by norm_num [percentageOf]
    rw [h1, h2]

/-- C2: every question object the student-facing questions API returns
carries exactly the `question` and `options` fields; the `correct_answer`
field, the `explanations` map and the `correctAnswerExplanation` field
never appear in any returned question. -/
theorem sanitized_questions (st : AppState) (sess : Session)
    (quizId qid title : String) (n : Nat) (qs : List Json)
    (h : apiQuizGet st sess quizId = .ok qid title n qs) :
    ∀ cq ∈ qs, cq.keys = ["question", "options"] ∧
      "correct_answer" ∉ cq.keys ∧ "explanations" ∉ cq.keys ∧
      "correctAnswerExplanation" ∉ cq.keys := by
  unfold apiQuizGet at h
  split at h
  · exact absurd h (by simp)
  · split at h
    · exact absurd h (by simp)
    · injection h with h1 h2 h3 h4
      subst h4
      intro cq hcq
      simp only [questionsForClient, List.mem_map] at hcq
      obtain ⟨q, _, rfl⟩ := hcq
      refine ⟨rfl, ?_, ?_, ?_⟩ <;> simp [Json.keys]

/-- Witness for sanitized_questions: the one sanitized question served for
the demo quiz has exactly the two sanitized fields. -/
theorem sanitized_questions_witness :
    (Json.obj [("question", demoQuestion.getField "question"),
               ("options", demoQuestion.getField "options")]).keys =
        ["question", "options"] ∧
    "correct_answer" ∉ (Json.obj [("question", demoQuestion.getField "question"),
        ("options", demoQuestion.getField "options")]).keys ∧
    "explanations" ∉ (Json.obj [("question", demoQuestion.getField "question"),
        ("options", demoQuestion.getField "options")]).keys ∧
    "correctAnswerExplanation" ∉ (Json.obj
        [("question", demoQuestion.getField "question"),
         ("options", demoQuestion.getField "options")]).keys :=
  sanitized_questions demoState demoStudent "qz1" "qz1" "Arithmetic" 1
    (questionsForClient demoQuiz.questions) rfl
    (Json.obj [("question", demoQuestion.getField "question"),
               ("options", demoQuestion.getField "options")])
    (by simp [questionsForClient, demoQuiz])

/-- C5: when a QuizResult for the (quiz, student) pair already exists, a
further submission by that student is rejected with status 400 and the
database state is returned unchanged — no second QuizResult and no other
mutation. -/
theorem duplicate_submission_rejected (st : AppState) (sess : Session)
    (quizId : String) (answers : List SAnswer) (t : Nat) (quiz : StoredQuiz)
    (hs : sess.userType = "student")
    (hq : st.quizzes.find? (fun qz => qz.id = quizId) = some quiz)
    (henr : enrollmentOk st sess.userId quiz.classId = true)
    (hdup : (st.results.find?
      (fun r => r.quizId = quizId && r.studentId = sess.userId)).isSome = true) :
    submitQuiz st sess quizId answers t =
      ({ status := 400, success := false,
         message := "You have already submitted this quiz." }, st) := by
  simp only [submitQuiz, hs, ne_eq, hq, henr, hdup]
  simp

/-- Witness for duplicate_submission_rejected: the demo student already has
a result on quiz qz1 and submits again. -/
theorem duplicate_submission_rejected_witness :
    submitQuiz demoStateTaken demoStudent "qz1" demoAnswers 30 =
      ({ status := 400, success := false,
         message := "You have already submitted this quiz." }, demoStateTaken) :=
  duplicate_submission_rejected demoStateTaken demoStudent "qz1" demoAnswers 30
    demoQuiz rfl rfl rfl rfl

/-- C10: the questions API endpoint enforces neither an enrollment check
nor an already-attempted check: even when the quiz belongs to a class the
student is not enrolled in and a QuizResult for the pair already exists,
it returns the sanitized questions — while the separate page route refuses
the student and the submit route answers 403. -/
theorem api_quiz_get_unguarded (st : AppState) (sess : Session) (quizId : String)
    (answers : List SAnswer) (t : Nat) (quiz : StoredQuiz) (cid : String)
    (hs : sess.userType = "student")
    (hq : st.quizzes.find? (fun qz => qz.id = quizId) = some quiz)
    (hclass : quiz.classId = some cid)
    (henr : st.enrollments.find?
      (fun e => e.studentId = sess.userId && e.classId = cid && e.isActive) = none)
    (_hres : (st.results.find?
      (fun r => r.quizId = quizId && r.studentId = sess.userId)).isSome = true) :
    apiQuizGet st sess quizId =
      .ok quizId quiz.lectureTitle quiz.totalQuestions
        (questionsForClient quiz.questions) ∧
    (takeQuiz st sess quizId none).1 =
      .forbiddenPage "You are not enrolled in this class." ∧
    (submitQuiz st sess quizId answers t).1.status = 403 := by
  refine ⟨?_, ?_, ?_⟩
  · simp only [apiQuizGet, hs, ne_eq, hq]
    simp
  · simp only [takeQuiz, hs, ne_eq, hq, hclass]
    simp [enrollmentOk, henr]
  · simp only [submitQuiz, hs, ne_eq, hq, hclass]
    simp [enrollmentOk, henr]

/-- Witness for api_quiz_get_unguarded: the demo student is unenrolled in
c1 and already has a result on qz2, yet the API serves the questions. -/
theorem api_quiz_get_unguarded_witness :
    apiQuizGet demoStateClassTaken demoStudent "qz2" =
      .ok "qz2" demoClassQuiz.lectureTitle demoClassQuiz.totalQuestions
        (questionsForClient demoClassQuiz.questions) ∧
    (takeQuiz demoStateClassTaken demoStudent "qz2" none).1 =
      .forbiddenPage "You are not enrolled in this class." ∧
    (submitQuiz demoStateClassTaken demoStudent "qz2" demoAnswers 30).1.status = 403 :=
  api_quiz_get_unguarded demoStateClassTaken demoStudent "qz2" demoAnswers 30
    demoClassQuiz "c1" rfl rfl rfl rfl rfl

theorem find_updateLecture_self (lectures : List Lecture) (id : String)
    (f : Lecture → Lecture) (hf : ∀ l, (f l).id = l.id) (lecture : Lecture)
    (hl : lectures.find? (fun l => l.id = id) = some lecture) :
    (updateLecture lectures id f).find? (fun l => l.id = id) = some (f lecture) := by
  induction lectures with
  | nil => simp at hl
  | cons a rest ih =>
      by_cases ha : a.id = id
      · have haf : a = lecture := by simp [List.find?, ha] at hl; exact hl
        subst haf
        simp [updateLecture, List.find?, ha, hf a]
      · have hrest : rest.find? (fun l => l.id = id) = some lecture := by
          simpa [List.find?, ha] using hl
        have := ih hrest
        simpa [updateLecture, List.find?, ha] using this

/-- C3: when a quiz already exists for the lecture, a further generation
request by a requester who passes the ownership check is rejected with the
conflict message and status 400, and the state is returned unchanged: no
second quiz document and no lecture mutation (in particular the
processingStatus is untouched). -/
theorem generation_conflict_rejected (st : AppState) (sess : Session)
    (lectureId : String) (ai : AiCall) (newQuizId : String) (lecture : Lecture)
    (hl : st.lectures.find? (fun l => l.id = lectureId) = some lecture)
    (hown : sess.userType = "teacher" → lecture.professorId = sess.userId)
    (hex : (st.quizzes.find? fun qz => qz.lectureId = lectureId).isSome = true) :
    generateQuiz st sess lectureId ai newQuizId =
      ({ status := 400, success := false,
         message := "Quiz already generated for this lecture" }, st) := by
  by_cases h : sess.userType = "teacher"
  · simp only [generateQuiz, hl]
    simp [h, hown h, hex]
  · simp only [generateQuiz, hl]
    simp [h, hex]

/-- Witness for generation_conflict_rejected: quiz qz1 already exists for
lecture lec1 and the owning teacher asks again. -/
theorem generation_conflict_rejected_witness :
    generateQuiz demoState demoTeacher "lec1" demoAi "qz9" =
      ({ status := 400, success := false,
         message := "Quiz already generated for this lecture" }, demoState) :=
  generation_conflict_rejected demoState demoTeacher "lec1" demoAi "qz9"
    demoLecture rfl (fun _ => rfl) rfl

/-- C7: when the extracted text of the lecture is missing or shorter than
50 characters, generation answers status 400 with a validation message,
the lecture document ends with processingStatus failed and the
human-readable error string recorded, and the quiz collection is
untouched. -/
theorem short_text_generation_fails (st : AppState) (sess : Session)
    (lectureId : String) (ai : AiCall) (newQuizId : String) (lecture : Lecture)
    (hl : st.lectures.find? (fun l => l.id = lectureId) = some lecture)
    (hown : sess.userType = "teacher" → lecture.professorId = sess.userId)
    (hnoq : st.quizzes.find? (fun qz => qz.lectureId = lectureId) = none)
    (hshort : textTooShort lecture.extractedText = true) :
    (generateQuiz st sess lectureId ai newQuizId).1 =
      { status := 400, success := false,
        message := "Extracted text is too short or missing for quiz generation." } ∧
    ((generateQuiz st sess lectureId ai newQuizId).2.lectures.find?
        fun l => l.id = lectureId) =
      some { lecture with
               processingStatus := "failed"
               quizGenerated := false
               quizGenerationError := some "Text too short for quiz generation" } ∧
    (generateQuiz st sess lectureId ai newQuizId).2.quizzes = st.quizzes := by
  have heq : generateQuiz st sess lectureId ai newQuizId =
      ({ status := 400, success := false,
         message := "Extracted text is too short or missing for quiz generation." },
       failLecture
         { st with
             lectures :=
               updateLecture st.lectures lectureId
                 (fun l => { l with processingStatus := "processing" }) }
         lectureId "Text too short for quiz generation") := by
    by_cases h : sess.userType = "teacher"
    · simp only [generateQuiz, hl]
      simp [h, hown h, hnoq, hshort, generateQuizCore]
    · simp only [generateQuiz, hl]
      simp [h, hnoq, hshort, generateQuizCore]
  rw [heq]
  refine ⟨rfl, ?_, rfl⟩
  simp only [failLecture]
  have h1 := find_updateLecture_self st.lectures lectureId
    (fun l => { l with processingStatus := "processing" }) (fun _ => rfl) lecture hl
  exact find_updateLecture_self _ lectureId
    (fun l => { l with
                  processingStatus := "failed"
                  quizGenerated := false
                  quizGenerationError := some "Text too short for quiz generation" })
    (fun _ => rfl) { lecture with processingStatus := "processing" } h1

/-- Witness for short_text_generation_fails: lecture lec2 has a 4-character
extracted text. -/
theorem short_text_generation_fails_witness :
    (generateQuiz demoGenState demoTeacher "lec2" demoAi "qz9").1 =
      { status := 400, success := false,
        message := "Extracted text is too short or missing for quiz generation." } ∧
    ((generateQuiz demoGenState demoTeacher "lec2" demoAi "qz9").2.lectures.find?
        fun l => l.id = "lec2") =
      some { demoShortLecture with
               processingStatus := "failed"
               quizGenerated := false
               quizGenerationError := some "Text too short for quiz generation" } ∧
    (generateQuiz demoGenState demoTeacher "lec2" demoAi "qz9").2.quizzes =
      demoGenState.quizzes :=
  short_text_generation_fails demoGenState demoTeacher "lec2" demoAi "qz9"
    demoShortLecture rfl (fun _ => rfl) rfl rfl

theorem Json.setField_isObj (j : Json) (k : String) (v : Json) :
    (j.setField k v).isObj = j.isObj := by
  cases j <;> rfl

theorem Json.isObj_iff (j : Json) : j.isObj = true ↔ ∃ fs, j = .obj fs := by
  cases j <;> simp [Json.isObj]

theorem Json.getField_setField_self_arr (el : List Json) (ps : List (String × Json))
    (k : String) (v : Json) : ((Json.arr el ps).setField k v).getField k = v := by
  simp [Json.setField, Json.getField, getAssoc_setAssoc_self]

theorem fallbackExplanation_ne_empty (ca : String) : fallbackExplanation ca ≠ "" := by
  intro h
  have h2 := congrArg String.data h
  simp [fallbackExplanation, String.data_append] at h2

theorem stepOption_ok_isObj (ca : String) (e e' : Json) (opt : String)
    (h : stepOption ca e opt = .ok e') : e'.isObj = e.isObj := by
  unfold stepOption at h
  split at h
  · cases h; rfl
  · split at h
    · split at h
      · split at h
        · cases h; rw [Json.setField_isObj]
        · cases h; rfl
      · exact absurd h (by simp)
    · cases h; rw [Json.setField_isObj]

theorem stepOption_getField_other (ca : String) (e e' : Json) (opt k : String)
    (h : stepOption ca e opt = .ok e') (hk : k ≠ opt) :
    e'.getField k = e.getField k := by
  unfold stepOption at h
  split at h
  · cases h; rfl
  · split at h
    · split at h
      · split at h
        · cases h; rw [Json.getField_setField_ne _ _ _ _ hk]
        · cases h; rfl
      · exact absurd h (by simp)
    · cases h; rw [Json.getField_setField_ne _ _ _ _ hk]

theorem stepOption_getField_self (ca : String) (g : List (String × Json)) (e' : Json)
    (opt : String) (h : stepOption ca (.obj g) opt = .ok e') (hca : opt ≠ ca) :
    ∃ s, e'.getField opt = .str s ∧ s ≠ "" := by
  unfold stepOption at h
  rw [if_neg hca] at h
  split at h
  · split at h
    · split at h
      · cases h
        refine ⟨fallbackExplanation ca, ?_, fallbackExplanation_ne_empty ca⟩
        exact Json.getField_setField_self_obj g opt (.str (fallbackExplanation ca))
      · cases h
        rename_i s hstr hne
        exact ⟨s, hstr, fun hempty => hne (by rw [hempty]; decide)⟩
    · exact absurd h (by simp)
  · cases h
    refine ⟨fallbackExplanation ca, ?_, fallbackExplanation_ne_empty ca⟩
    exact Json.getField_setField_self_obj g opt (.str (fallbackExplanation ca))

theorem truthy_getField_shape (q : Json) (k : String)
    (h : jsTruthy (q.getField k) = true) :
    (∃ fs, q = .obj fs) ∨ ∃ el ps, q = .arr el ps := by
  cases q with
  | obj fs => exact Or.inl ⟨fs, rfl⟩
  | arr el ps => exact Or.inr ⟨el, ps, rfl⟩
  | _ => simp [Json.getField, jsTruthy] at h

theorem validateQuestion_invariant (q q' : Json) (idx : Nat)
    (h : validateQuestion q idx = .ok q') (f : List (String × Json))
    (hf : q'.getField "explanations" = .obj f) :
    ∃ ca, q'.getField "correct_answer" = .str ca ∧ labels.contains ca = true ∧
      (Json.obj f).getField ca = .str "" ∧
      ∀ l ∈ labels, l ≠ ca → ∃ s, (Json.obj f).getField l = .str s ∧ s ≠ "" := by
  unfold validateQuestion at h
  split at h
  · exact absurd h (by simp)
  · rename_i hfields
    split at h
    rotate_left
    · exact absurd h (by simp)
    rename_i ca hca
    split at h
    case isFalse => exact absurd h (by simp)
    case isTrue hlab =>
      split at h
      · exact absurd h (by simp)
      rename_i e1 hA
      split at h
      · exact absurd h (by simp)
      rename_i e2 hB
      split at h
      · exact absurd h (by simp)
      rename_i e3 hC
      split at h
      · exact absurd h (by simp)
      rename_i e4 hD
      cases h
      rw [not_not, Bool.and_eq_true, Bool.and_eq_true, Bool.and_eq_true,
        Bool.and_eq_true] at hfields
      obtain ⟨⟨⟨⟨-, -⟩, -⟩, hexpl⟩, -⟩ := hfields
      have hX : e4.setField ca (Json.str "") = Json.obj f := by
        rcases truthy_getField_shape q "explanations" hexpl with
          ⟨fs, rfl⟩ | ⟨el, ps, rfl⟩
        · rw [Json.getField_setField_self_obj] at hf; exact hf
        · rw [Json.getField_setField_self_arr] at hf; exact hf
      have he4 : e4.isObj = true := by
        have hXo : (e4.setField ca (Json.str "")).isObj = true := by
          rw [hX]; rfl
        rwa [Json.setField_isObj] at hXo
      have he3 : e3.isObj = true := by
        rw [← stepOption_ok_isObj ca e3 e4 "D" hD]; exact he4
      have he2 : e2.isObj = true := by
        rw [← stepOption_ok_isObj ca e2 e3 "C" hC]; exact he3
      have he1 : e1.isObj = true := by
        rw [← stepOption_ok_isObj ca e1 e2 "B" hB]; exact he2
      have he0 : (q.getField "explanations").isObj = true := by
        rw [← stepOption_ok_isObj ca (q.getField "explanations") e1 "A" hA]
        exact he1
      obtain ⟨g0, hg0⟩ := (Json.isObj_iff _).mp he0
      obtain ⟨g1, hg1⟩ := (Json.isObj_iff _).mp he1
      obtain ⟨g2, hg2⟩ := (Json.isObj_iff _).mp he2
      obtain ⟨g3, hg3⟩ := (Json.isObj_iff _).mp he3
      obtain ⟨g4, hg4⟩ := (Json.isObj_iff _).mp he4
      refine ⟨ca, ?_, hlab, ?_, ?_⟩
      · rw [Json.getField_setField_ne _ _ _ _ (by decide)]
        exact hca
      · rw [← hX, hg4, Json.getField_setField_self_obj]
      · intro l hl hlne
        rw [← hX, Json.getField_setField_ne _ _ _ _ hlne]
        simp only [labels, List.mem_cons, List.not_mem_nil, or_false] at hl
        rcases hl with rfl | rfl | rfl | rfl
        · rw [stepOption_getField_other ca e3 e4 "D" "A" hD (by decide),
            stepOption_getField_other ca e2 e3 "C" "A" hC (by decide),
            stepOption_getField_other ca e1 e2 "B" "A" hB (by decide)]
          exact stepOption_getField_self ca g0 e1 "A" (by rwa [hg0] at hA) hlne
        · rw [stepOption_getField_other ca e3 e4 "D" "B" hD (by decide),
            stepOption_getField_other ca e2 e3 "C" "B" hC (by decide)]
          exact stepOption_getField_self ca g1 e2 "B" (by rwa [hg1] at hB) hlne
        · rw [stepOption_getField_other ca e3 e4 "D" "C" hD (by decide)]
          exact stepOption_getField_self ca g2 e3 "C" (by rwa [hg2] at hC) hlne
        · exact stepOption_getField_self ca g3 e4 "D" (by rwa [hg3] at hD) hlne

theorem validateQuestions_mem (qs : List Json) (idx : Nat) (out : List Json)
    (h : validateQuestions qs idx = .ok out) (q' : Json) (hq' : q' ∈ out) :
    ∃ q i, validateQuestion q i = .ok q' := by
  induction qs generalizing idx out with
  | nil =>
      unfold validateQuestions at h
      cases h
      simp at hq'
  | cons q0 rest ih =>
      unfold validateQuestions at h
      split at h
      · exact absurd h (by simp)
      · rename_i r0 hr0
        split at h
        · exact absurd h (by simp)
        · rename_i rest' hrest
          cases h
          rcases List.mem_cons.mp hq' with rfl | hmem
          · exact ⟨q0, idx, hr0⟩
          · exact ih (idx + 1) rest' hrest hmem

theorem validateQuiz_mem (j : Json) (out : List Json) (h : validateQuiz j = .ok out)
    (q' : Json) (hq' : q' ∈ out) : ∃ q i, validateQuestion q i = .ok q' := by
  unfold validateQuiz at h
  split at h
  · split at h
    · exact absurd h (by simp)
    · exact validateQuestions_mem _ _ _ h q' hq'
  · exact absurd h (by simp)

/-- C4 (amended): every quiz persisted by a successful generation run
satisfies the explanation-completeness invariant for each stored question
whose repaired explanations value is an object map: such a question has a
string `correct_answer` among the four labels, the empty string as the
explanations entry of the correct label, and a non-empty explanation
string at every other label (the synthesized fallback having been
substituted where the model entry was missing or blank).  The restriction
to object-shaped explanations is forced by a counterexample: a truthy
primitive explanations value passes validation unrepaired, because the
sloppy-mode property writes are silent no-ops on primitives. -/
theorem generated_quiz_explanations_complete (st : AppState) (sess : Session)
    (lectureId : String) (ai : AiCall) (newQuizId : String)
    (resp : ApiResponse) (st' : AppState)
    (h : generateQuiz st sess lectureId ai newQuizId = (resp, st'))
    (hsucc : resp.success = true) :
    ∃ nq : StoredQuiz, st'.quizzes = st.quizzes ++ [nq] ∧
      ∀ q' ∈ nq.questions, ∀ f, q'.getField "explanations" = Json.obj f →
        ∃ ca, q'.getField "correct_answer" = .str ca ∧ labels.contains ca = true ∧
          (Json.obj f).getField ca = .str "" ∧
          ∀ l ∈ labels, l ≠ ca → ∃ s, (Json.obj f).getField l = .str s ∧ s ≠ "" := by
  unfold generateQuiz at h
  split at h
  · exact absurd (congrArg (fun p => p.1.success) h) (by simp [hsucc])
  · rename_i lecture hl
    split at h
    · exact absurd (congrArg (fun p => p.1.success) h) (by simp [hsucc])
    · split at h
      · exact absurd (congrArg (fun p => p.1.success) h) (by simp [hsucc])
      · unfold generateQuizCore at h
        split at h
        · exact absurd (congrArg (fun p => p.1.success) h) (by simp [hsucc])
        · split at h
          case _ msg =>
            split at h
            · exact absurd (congrArg (fun p => p.1.success) h) (by simp [hsucc])
            · exact absurd (congrArg (fun p => p.1.success) h) (by simp [hsucc])
          case _ =>
            exact absurd (congrArg (fun p => p.1.success) h) (by simp [hsucc])
          case _ j =>
            split at h
            · exact absurd (congrArg (fun p => p.1.success) h) (by simp [hsucc])
            · rename_i questions hvq
              have hst' : st' = _ := (congrArg Prod.snd h).symm
              subst hst'
              refine ⟨{ id := newQuizId, lectureId := lectureId,
                        lectureTitle := lecture.title, questions := questions,
                        totalQuestions := questions.length, createdBy := sess.userId,
                        classId := lecture.classId, className := lecture.className },
                      rfl, ?_⟩
              intro q' hq' f hf
              obtain ⟨q0, i, hok⟩ := validateQuiz_mem j questions hvq q' hq'
              exact validateQuestion_invariant q0 q' i hok f hf

/-- Witness for generated_quiz_explanations_complete: a successful
generation from the demo raw question (with a blank B explanation and a
missing C explanation). -/
theorem generated_quiz_explanations_complete_witness :
    ∃ nq : StoredQuiz,
      (generateQuiz demoGenState demoTeacher "lec1" demoAi "qz9").2.quizzes =
        demoGenState.quizzes ++ [nq] ∧
      ∀ q' ∈ nq.questions, ∀ f, q'.getField "explanations" = Json.obj f →
        ∃ ca, q'.getField "correct_answer" = .str ca ∧ labels.contains ca = true ∧
          (Json.obj f).getField ca = .str "" ∧
          ∀ l ∈ labels, l ≠ ca → ∃ s, (Json.obj f).getField l = .str s ∧ s ≠ "" :=
  generated_quiz_explanations_complete demoGenState demoTeacher "lec1" demoAi "qz9"
    (generateQuiz demoGenState demoTeacher "lec1" demoAi "qz9").1
    (generateQuiz demoGenState demoTeacher "lec1" demoAi "qz9").2
    Prod.mk.eta.symm rfl

/-- C4 counterexample: the unconditional claim is false on the code.  A
model response whose `explanations` value is the truthy string primitive
"nope" passes validation — the field-presence check only tests
truthiness, and the per-label repair writes are silent no-ops on a
primitive — so generation succeeds and persists the question unchanged:
its correct answer is the wrong-label-bearing "A", yet label B carries no
explanation string at all (the lookup yields `undefined`), violating the
claimed invariant for the persisted quiz. -/
theorem generation_explanation_invariant_cex :
    (generateQuiz demoGenState demoTeacher "lec1" demoBadAi "qz8").1.success = true ∧
    (generateQuiz demoGenState demoTeacher "lec1" demoBadAi "qz8").2.quizzes =
      demoGenState.quizzes ++ [demoBadQuiz] ∧
    demoBadQuiz.questions = [demoBadQuestion] ∧
    demoBadQuestion.getField "correct_answer" = Json.str "A" ∧
    ¬ ∃ s, (demoBadQuestion.getField "explanations").getField "B" = Json.str s ∧
      s ≠ "" := by
  refine ⟨rfl, rfl, rfl, rfl, ?_⟩
  rintro ⟨s, hs, -⟩
  have hu : (demoBadQuestion.getField "explanations").getField "B" =
      Json.undefined := rfl
  rw [hu] at hs
  exact Json.noConfusion hs

theorem truthy_of_getField_str (v : Json) (k s : String)
    (h : v.getField k = .str s) : jsTruthy v = true := by
  cases v <;> first | rfl | simp [Json.getField] at h

theorem basicText_eval (question : Json) (ofs : List (String × Json))
    (hopts : question.getField "options" = .obj ofs) :
    (∀ t, question.getField "correctAnswerExplanation" = .str t → jsTrim t ≠ "" →
      basicText question = .ok ("The correct answer is " ++
        Json.jsToString (question.getField "correct_answer") ++ ") " ++
        Json.jsToString (getAssoc ofs
          (Json.jsToString (question.getField "correct_answer"))) ++ ".\n\n" ++ t)) ∧
    (jsBlank (question.getField "correctAnswerExplanation") →
      basicText question = .ok ("The correct answer is " ++
        Json.jsToString (question.getField "correct_answer") ++ ") " ++
        Json.jsToString (getAssoc ofs
          (Json.jsToString (question.getField "correct_answer"))) ++
        ". Please review the lecture material for detailed understanding.")) := by
  constructor
  · intro t hcae hct
    have ht0 : t ≠ "" := fun he => hct (by rw [he]; rfl)
    simp only [basicText, hcae, hopts]
    simp [jsTruthy, jsGetProp, Json.getField, ht0, hct]
  · intro hblank
    rcases hblank with hfalsy | ⟨t, hstr, htrim⟩
    · simp only [basicText, hopts, hfalsy]
      simp [jsGetProp, Json.getField]
    · simp only [basicText, hstr, hopts]
      by_cases ht0 : t = ""
      · subst ht0
        simp [jsTruthy, jsGetProp, Json.getField]
      · simp [jsTruthy, jsGetProp, Json.getField, ht0, htrim]

theorem explanationText_eval (question : Json) (w : String) :
    (∀ s t, (question.getField "explanations").getField w = .str s →
      jsTrim s ≠ "" →
      question.getField "correctAnswerExplanation" = .str t → jsTrim t ≠ "" →
      explanationText question w = .ok (s ++ "\n\n💡 **Why " ++
        Json.jsToString (question.getField "correct_answer") ++
        " is correct:** " ++ t, "detailed")) ∧
    (∀ s, (question.getField "explanations").getField w = .str s →
      jsTrim s ≠ "" →
      jsBlank (question.getField "correctAnswerExplanation") →
      explanationText question w = .ok (s, "detailed")) ∧
    (jsBlank ((question.getField "explanations").getField w) →
      explanationText question w = (basicText question).map fun b => (b, "basic")) := by
  refine ⟨?_, ?_, ?_⟩
  · intro s t hsw hst hcae hct
    have hexp := truthy_of_getField_str _ _ _ hsw
    have hs0 : s ≠ "" := fun he => hst (by rw [he]; rfl)
    have ht0 : t ≠ "" := fun he => hct (by rw [he]; rfl)
    simp only [explanationText, hsw, hcae, hexp]
    simp [jsTruthy, hs0, hst, ht0, hct]
  · intro s hsw hst hblank
    have hexp := truthy_of_getField_str _ _ _ hsw
    have hs0 : s ≠ "" := fun he => hst (by rw [he]; rfl)
    rcases hblank with hfalsy | ⟨t, hstr, htrim⟩
    · simp only [explanationText, hsw, hexp, hfalsy]
      simp [jsTruthy, hs0, hst]
    · simp only [explanationText, hsw, hexp, hstr]
      by_cases ht0 : t = ""
      · subst ht0
        simp [jsTruthy, hs0, hst]
      · simp [jsTruthy, hs0, hst, ht0, htrim]
  · intro hblank
    rcases hblank with hfalsy | ⟨t0, hstr, htrim⟩
    · simp only [explanationText, hfalsy]
      simp
    · have hexp := truthy_of_getField_str _ _ _ hstr
      simp only [explanationText, hstr, hexp]
      by_cases ht0 : t0 = ""
      · subst ht0
        simp [jsTruthy]
      · simp [jsTruthy, ht0, htrim]

/-- C8: for every stored quiz, valid question index and chosen label, the
explanation lookup returns the stored entry for that label when it is
present and non-blank — with the correct-answer explanation appended
after a visible delimiter when that is itself non-blank — and otherwise
(entry absent or blank, as for the correct label, whose stored entry is
the empty string) returns the generic templated message naming the
correct option, together with the stored correct-answer explanation when
that is available.  The route reads only the stored quiz document; the
external model is never called. -/
theorem explanation_lookup (st : AppState) (sess : Session) (quizId : String)
    (idx : Nat) (w : String) (quiz : StoredQuiz) (question : Json)
    (ofs : List (String × Json))
    (hs : sess.userType = "student")
    (hq : st.quizzes.find? (fun qz => qz.id = quizId) = some quiz)
    (hidx : quiz.questions.get? idx = some question)
    (htr : jsTruthy question = true)
    (hopts : question.getField "options" = .obj ofs) :
    (∀ s t, (question.getField "explanations").getField w = .str s →
      jsTrim s ≠ "" →
      question.getField "correctAnswerExplanation" = .str t → jsTrim t ≠ "" →
      explanationGet st sess quizId idx w =
        .ok (s ++ "\n\n💡 **Why " ++
          Json.jsToString (question.getField "correct_answer") ++
          " is correct:** " ++ t) "detailed") ∧
    (∀ s, (question.getField "explanations").getField w = .str s →
      jsTrim s ≠ "" →
      jsBlank (question.getField "correctAnswerExplanation") →
      explanationGet st sess quizId idx w = .ok s "detailed") ∧
    (∀ t, jsBlank ((question.getField "explanations").getField w) →
      question.getField "correctAnswerExplanation" = .str t → jsTrim t ≠ "" →
      explanationGet st sess quizId idx w =
        .ok ("The correct answer is " ++
          Json.jsToString (question.getField "correct_answer") ++ ") " ++
          Json.jsToString (getAssoc ofs
            (Json.jsToString (question.getField "correct_answer"))) ++
          ".\n\n" ++ t) "basic") ∧
    (jsBlank ((question.getField "explanations").getField w) →
      jsBlank (question.getField "correctAnswerExplanation") →
      explanationGet st sess quizId idx w =
        .ok ("The correct answer is " ++
          Json.jsToString (question.getField "correct_answer") ++ ") " ++
          Json.jsToString (getAssoc ofs
            (Json.jsToString (question.getField "correct_answer"))) ++
          ". Please review the lecture material for detailed understanding.")
        "basic") := by
  have hbase : ∀ text ty, explanationText question w = .ok (text, ty) →
      explanationGet st sess quizId idx w = .ok text ty := by
    intro text ty het
    simp only [explanationGet, hs, hq, hidx, htr, het, hopts]
    simp [jsGetProp]
  obtain ⟨hb1, hb2⟩ := basicText_eval question ofs hopts
  obtain ⟨he1, he2, he3⟩ := explanationText_eval question w
  refine ⟨?_, ?_, ?_, ?_⟩
  · intro s t hsw hst hcae hct
    exact hbase _ _ (he1 s t hsw hst hcae hct)
  · intro s hsw hst hblank
    exact hbase _ _ (he2 s hsw hst hblank)
  · intro t hblank hcae hct
    have hb := he3 hblank
    rw [hb1 t hcae hct] at hb
    exact hbase _ _ (by simpa using hb)
  · intro hblank hcblank
    have hb := he3 hblank
    rw [hb2 hcblank] at hb
    exact hbase _ _ (by simpa using hb)

/-- Witness for explanation_lookup: the stored wrong-answer explanation
for label D of the demo question, with the correct-answer explanation
appended after the delimiter. -/
theorem explanation_lookup_witness :
    explanationGet demoState demoStudent "qz1" 0 "D" =
      .ok ("One is too small.\n\n💡 **Why A is correct:** Adding two and two gives four.")
        "detailed" := by
  have h := (explanation_lookup demoState demoStudent "qz1" 0 "D" demoQuiz demoQuestion
      [("A", .str "4"), ("B", .str "3"), ("C", .str "2"), ("D", .str "1")]
      rfl rfl rfl rfl rfl).1
    "One is too small." "Adding two and two gives four." rfl (by decide) rfl (by decide)
  exact h.trans (by decide)

end Quizzie
